import Mathlib

/-!
Verification development for the streaming market-data client
(`tastytrade_sdk/market_data`): a shallow embedding of the event decoder
(`event.py`), the dispatcher, the receive loop, the handshake performed by
`Subscription.open`, and the construction / close paths of `Subscription`
(`subscription.py`), together with theorems settling the specified
properties.
-/

/-- The closed set of feed event types, from the `EventType` enum in
`event.py` (a string enum with values Candle, Greeks, Quote, Trade; the
string values are implicit here since all comparisons in the source are
against members of this set). -/
inductive EventType where
  | CANDLE
  | GREEKS
  | QUOTE
  | TRADE
deriving DecidableEq

/-- `DEFAULT_QUOTE_FIELDS` from `event.py`. -/
def DEFAULT_QUOTE_FIELDS : List String :=
  ["eventSymbol", "eventTime", "sequence", "timeNanoPart", "bidTime",
   "bidExchangeCode", "askTime", "askExchangeCode", "bidPrice", "askPrice",
   "bidSize", "askSize"]

/-- `DEFAULT_CANDLE_FIELDS` from `event.py`. -/
def DEFAULT_CANDLE_FIELDS : List String :=
  ["eventSymbol", "eventTime", "eventFlags", "index", "time", "sequence",
   "count", "open", "high", "low", "close", "volume", "vwap", "bidVolume",
   "askVolume", "impVolatility", "openInterest"]

/-- `DEFAULT_TRADE_FIELDS` from `event.py`. -/
def DEFAULT_TRADE_FIELDS : List String :=
  ["eventSymbol", "eventTime", "time", "timeNanoPart", "sequence",
   "exchangeCode", "dayId", "tickDirection", "extendedTradingHours",
   "price", "change", "size", "dayVolume", "dayTurnover"]

/-- `DEFAULT_GREEKS_FIELDS` from `event.py`. -/
def DEFAULT_GREEKS_FIELDS : List String :=
  ["eventSymbol", "eventTime", "eventFlags", "index", "time", "sequence",
   "price", "volatility", "delta", "gamma", "theta", "rho", "vega"]

/-- The `FIELD_MAPPINGS` dict of `event.py`, viewed as a lookup function.
The environment-variable override of each field list (`os.getenv`) is out
of scope per the spec, so each type maps to its default field list. -/
def FIELD_MAPPINGS : EventType → List String
  | EventType.QUOTE => DEFAULT_QUOTE_FIELDS
  | EventType.CANDLE => DEFAULT_CANDLE_FIELDS
  | EventType.TRADE => DEFAULT_TRADE_FIELDS
  | EventType.GREEKS => DEFAULT_GREEKS_FIELDS

/-- The `FIELD_MAPPINGS` dict of `event.py` viewed as the ordered
association list it is on the wire (insertion order of the dict literal:
Quote, Candle, Trade, Greeks), used as the `acceptEventFields` payload of
the FEED_SETUP frame. -/
def FIELD_MAPPINGS_assoc : List (EventType × List String) :=
  [(EventType.QUOTE, DEFAULT_QUOTE_FIELDS),
   (EventType.CANDLE, DEFAULT_CANDLE_FIELDS),
   (EventType.TRADE, DEFAULT_TRADE_FIELDS),
   (EventType.GREEKS, DEFAULT_GREEKS_FIELDS)]

/-- An event record: the `dict(zip(keys, local_values))` built by
`event_from_stream`, modelled as the ordered association list of
field-name / value pairs (the schema field names are pairwise distinct, so
the Python dict retains exactly these pairs in this order). `α` is the type
of raw scalar values carried on the wire. -/
abbrev Event (α : Type) := List (String × α)

/-- `event_from_stream` from `event.py`: splits the flat value array
`data` into consecutive chunks whose size is the length of the field
schema for `msg_type` and zips each chunk with the schema. The Python
source computes `multiples = len(data) / size` with float division and
raises `RuntimeError` when `multiples.is_integer()` is false; for the
(positive-length) schemas in `FIELD_MAPPINGS` and exactly representable
lengths this is the divisibility test modelled here. -/
def event_from_stream (data : List α) (msg_type : EventType) :
    Except String (List (Event α)) :=
  let keys := FIELD_MAPPINGS msg_type
  let size := keys.length
  if data.length % size = 0 then
    Except.ok ((List.range (data.length / size)).map fun i =>
      keys.zip ((data.drop (i * size)).take size))
  else
    Except.error "Mapper data input values are not a multiple of the key size"

/-- The four optional feed-event callbacks of a `Subscription`
(`on_candle`, `on_greeks`, `on_quote`, `on_trade`, in the parameter order
of `Subscription.__init__`). Each field records whether the corresponding
callback is non-null; what a callback does when invoked is outside the
model, so dispatch results name the slot that fires instead of calling a
function. -/
structure Callbacks where
  on_candle : Bool
  on_greeks : Bool
  on_quote : Bool
  on_trade : Bool
deriving DecidableEq

/-- The callback slot selected by the dispatcher. -/
inductive CallbackSlot where
  | quote
  | candle
  | greeks
  | trade
deriving DecidableEq

/-- `Subscription.__handle_feed_event`: the cascaded if/elif dispatch. A
branch fires only when the frame type matches and that callback is
non-null, and it passes the whole `events` batch to the one selected
callback. The final `else` branch in the source evaluates
`logging.debug(..., original_symbol)` where `original_symbol` is an
undefined name, so instead of logging it raises `NameError`. -/
def handle_feed_event (cbs : Callbacks) (events : List (Event α))
    (msg_type : EventType) : Except String (CallbackSlot × List (Event α)) :=
  if msg_type = EventType.QUOTE ∧ cbs.on_quote = true then
    Except.ok (CallbackSlot.quote, events)
  else if msg_type = EventType.CANDLE ∧ cbs.on_candle = true then
    Except.ok (CallbackSlot.candle, events)
  else if msg_type = EventType.GREEKS ∧ cbs.on_greeks = true then
    Except.ok (CallbackSlot.greeks, events)
  else if msg_type = EventType.TRADE ∧ cbs.on_trade = true then
    Except.ok (CallbackSlot.trade, events)
  else
    Except.error "NameError: name original_symbol is not defined"

/-- Which outbound frame a `LoopThread` activity sends, for the two
activities a `Subscription` creates: the receive loop (`self.__receive`)
and the keepalive sender (`lambda: self.__send(KEEPALIVE)`). -/
inductive ThreadActivity where
  | receiveActivity
  | sendKeepalive (channel : Nat)
deriving DecidableEq

/-- A `LoopThread` from `subscription.py`, modelled by its configuration:
the activity it repeats and its `timeout_seconds` polling interval
(`0` when the constructor default is used). -/
structure LoopThread where
  activity : ThreadActivity
  timeout_seconds : Nat
deriving DecidableEq

/-- The mutable session state touched by `Subscription.__receive`: the
`__is_authorized` flag and the `__keepalive_thread` handle (absent until
the SETUP acknowledgment arrives). -/
structure SessionState where
  is_authorized : Bool
  keepalive_thread : Option LoopThread
deriving DecidableEq

/-- The state of a `Subscription` right after `__init__`:
`__is_authorized = False` (class default) and no keepalive thread. -/
def initialSessionState : SessionState :=
  { is_authorized := false, keepalive_thread := none }

/-- The head element of a FEED_DATA `data` payload: `message[0]` in
`Subscription._map_message` is either a single type string or a list of
type strings (`message[0][0]` is then taken). -/
inductive FeedDataHead where
  | single (t : EventType)
  | multi (ts : List EventType)
deriving DecidableEq

/-- An inbound frame after JSON parsing, classified the way
`Subscription.__receive` dispatches on `message[type]`: ERROR, SETUP
(server acknowledgment carrying `keepaliveTimeout`), AUTH_STATE (carrying
the `state` string), FEED_DATA (carrying `data = [head, values]`), and any
other type. `α` is the scalar value type of the flat data array. -/
inductive InboundFrame (α : Type) where
  | error (error message : String)
  | setup (keepaliveTimeout : Nat)
  | auth_state (state : String)
  | feed_data (head : FeedDataHead) (values : List α)
  | other (t : String)

/-- An exception escaping one receive-loop iteration: the
`StreamerException(error, message)` raised for an ERROR frame, the
`RuntimeError` raised by `event_from_stream`, the `NameError` raised by
the unhandled-event-type branch of `__handle_feed_event`, and the
`IndexError` from `message[0][0]` when the head list is empty. -/
inductive ReceiveError where
  | streamer (error message : String)
  | runtime (msg : String)
  | name_error (msg : String)
  | index_error
deriving DecidableEq

/-- `Subscription._map_message`: extracts the event type from the head of
the FEED_DATA payload (`message[0]` or `message[0][0]`), decodes the flat
value array with `event_from_stream`, and hands the decoded batch to
`__handle_feed_event`. -/
def map_message (cbs : Callbacks) (head : FeedDataHead) (values : List α) :
    Except ReceiveError (CallbackSlot × List (Event α)) :=
  match head with
  | FeedDataHead.single t =>
      match event_from_stream values t with
      | Except.error m => Except.error (ReceiveError.runtime m)
      | Except.ok events =>
          match handle_feed_event cbs events t with
          | Except.error m => Except.error (ReceiveError.name_error m)
          | Except.ok d => Except.ok d
  | FeedDataHead.multi [] => Except.error ReceiveError.index_error
  | FeedDataHead.multi (t :: _) =>
      match event_from_stream values t with
      | Except.error m => Except.error (ReceiveError.runtime m)
      | Except.ok events =>
          match handle_feed_event cbs events t with
          | Except.error m => Except.error (ReceiveError.name_error m)
          | Except.ok d => Except.ok d

/-- One iteration of `Subscription.__receive` applied to a parsed inbound
frame: ERROR raises `StreamerException`; SETUP computes
`floor(keepaliveTimeout / 2)` and starts the keepalive `LoopThread`, whose
activity sends a KEEPALIVE frame on the default channel 0 of
`Subscription.__send`; AUTH_STATE assigns
`is_authorized := (state == "AUTHORIZED")`; FEED_DATA decodes and
dispatches; any other type is only logged. The guard lines of the source
that read no frame (absent websocket, `ConnectionClosedOK`) change no
state and are not modelled. The second component of the result is the
dispatch performed, if any. -/
def receive (cbs : Callbacks) (s : SessionState) (f : InboundFrame α) :
    Except ReceiveError (SessionState × Option (CallbackSlot × List (Event α))) :=
  match f with
  | InboundFrame.error e m => Except.error (ReceiveError.streamer e m)
  | InboundFrame.setup keepaliveTimeout =>
      Except.ok
        ({ s with keepalive_thread :=
                    some ⟨ThreadActivity.sendKeepalive 0, keepaliveTimeout / 2⟩ },
         none)
  | InboundFrame.auth_state st =>
      Except.ok ({ s with is_authorized := st == "AUTHORIZED" }, none)
  | InboundFrame.feed_data head values =>
      match map_message cbs head values with
      | Except.error e => Except.error e
      | Except.ok d => Except.ok (s, some d)
  | InboundFrame.other _ => Except.ok (s, none)

/-- Runs the receive loop over a list of inbound frames in arrival order.
An exception raised while processing a frame terminates the loop thread,
so the remaining frames are not processed and the state at that point is
final. -/
def run_receive_loop (cbs : Callbacks) (s : SessionState) :
    List (InboundFrame α) → SessionState
  | [] => s
  | f :: fs =>
      match receive cbs s f with
      | Except.ok (s1, _) => run_receive_loop cbs s1 fs
      | Except.error _ => s

/-- `subscription_types` as built by `Subscription.open` (lines 76 to 84):
the event-type name list grown by one conditional append per non-null
callback, in the source order Quote, Candle, Greeks, Trade. -/
def subscription_types (cbs : Callbacks) : List EventType :=
  (if cbs.on_quote then [EventType.QUOTE] else []) ++
  (if cbs.on_candle then [EventType.CANDLE] else []) ++
  (if cbs.on_greeks then [EventType.GREEKS] else []) ++
  (if cbs.on_trade then [EventType.TRADE] else [])

/-- The subscription list used by `Subscription.open`: the explicit list
when `self.__subscriptions is not None`, otherwise
`itertools.product(streamer_symbols, subscription_types)` rendered as the
list of symbol/type pairs, symbol-major. -/
def open_subscriptions (explicit : Option (List (String × EventType)))
    (streamer_symbols : List String) (cbs : Callbacks) :
    List (String × EventType) :=
  match explicit with
  | some subs => subs
  | none =>
      streamer_symbols.flatMap fun s =>
        (subscription_types cbs).map fun t => (s, t)

/-- The immutable configuration captured by a successfully constructed
`Subscription` (the instance attributes assigned in `__init__`; the
symbol-translation collaborator is represented by its
`streamer_symbols` list, the only part of it the session reads). -/
structure SubscriptionConfig where
  url : String
  token : String
  subscriptions : Option (List (String × EventType))
  streamer_symbols : List String
  callbacks : Callbacks
deriving DecidableEq

/-- `Subscription.__init__`: raises `InvalidArgument` when all four
callbacks are null (`not (on_quote or on_candle or on_greeks or
on_trade)`), before doing anything else; otherwise records the
configuration. The constructor performs no network activity in either
case. -/
def subscription_init (url token : String)
    (subscriptions : Option (List (String × EventType)))
    (streamer_symbols : List String) (cbs : Callbacks) :
    Except String SubscriptionConfig :=
  if !(cbs.on_quote || cbs.on_candle || cbs.on_greeks || cbs.on_trade) then
    Except.error "At least one feed event handler must be provided"
  else
    Except.ok ⟨url, token, subscriptions, streamer_symbols, cbs⟩

/-- The attribute store of a `Subscription` object for the four
class-level names of `subscription.py` lines 42 to 45. The outer `Option`
records whether the attribute exists at all: `none` means reading it
raises `AttributeError`. In the class body only `__websocket = None` and
`__is_authorized = False` are assigned values; `__keepalive_thread` and
`__receive_thread` are bare annotations, so those names do not exist until
first assigned. The websocket is represented by `Unit` (only its presence
and truthiness matter here); a Python `None` value is the inner `none`. -/
structure SubscriptionAttrs where
  websocket : Option (Option Unit)
  keepalive_thread : Option (Option LoopThread)
  receive_thread : Option (Option LoopThread)
  is_authorized : Option Bool
deriving DecidableEq

/-- The attribute store right after `__init__` returns: `__init__`
assigns none of these four attributes, so they hold their class-level
state. -/
def subscription_attrs_after_init : SubscriptionAttrs :=
  { websocket := some none,
    keepalive_thread := none,
    receive_thread := none,
    is_authorized := some false }

/-- The observable release actions of `Subscription.close`. -/
inductive CloseEffect where
  | stopKeepalive
  | stopReceive
  | closeSocket
deriving DecidableEq

/-- `Subscription.close`: `if self.__keepalive_thread: stop()`, then the
same for `__receive_thread`, then `if self.__websocket: close()`. Each
`if` first reads the attribute, which raises `AttributeError` when the
name was never assigned; a present-but-falsy value (`None`) skips the
release step. The result is the list of release actions performed, or the
exception raised. -/
def subscription_close (s : SubscriptionAttrs) :
    Except String (List CloseEffect) :=
  match s.keepalive_thread with
  | none => Except.error "AttributeError: _Subscription__keepalive_thread"
  | some kt =>
      match s.receive_thread with
      | none => Except.error "AttributeError: _Subscription__receive_thread"
      | some rt =>
          match s.websocket with
          | none => Except.error "AttributeError: _Subscription__websocket"
          | some ws =>
              Except.ok
                ((if kt.isSome then [CloseEffect.stopKeepalive] else []) ++
                 (if rt.isSome then [CloseEffect.stopReceive] else []) ++
                 (if ws.isSome then [CloseEffect.closeSocket] else []))

/-- The outbound frames built by `Subscription.__send` during the
handshake and keepalive (field values as in `subscription.py`; the dict
payloads are carried as their ordered contents). -/
inductive OutFrame where
  | SETUP (channel : Nat) (version : String)
  | AUTH (channel : Nat) (token : String)
  | CHANNEL_REQUEST (channel : Nat) (service contract : String)
  | FEED_SETUP (channel acceptAggregationPeriod : Nat)
      (acceptDataFormat : String)
      (acceptEventFields : List (EventType × List String))
  | FEED_SUBSCRIPTION (channel : Nat) (add : List (String × EventType))
  | KEEPALIVE (channel : Nat)
deriving DecidableEq

/-- The protocol version string sent in the SETUP frame. -/
def protocolVersion : String := "0.1-js/1.0.0"

/-- The five handshake frames of `Subscription.open`, in program order
(lines 89 to 96). -/
def handshakeSends (token : String) (subs : List (String × EventType)) :
    List OutFrame :=
  [OutFrame.SETUP 0 protocolVersion,
   OutFrame.AUTH 0 token,
   OutFrame.CHANNEL_REQUEST 1 "FEED" "AUTO",
   OutFrame.FEED_SETUP 1 10 "COMPACT" FIELD_MAPPINGS_assoc,
   OutFrame.FEED_SUBSCRIPTION 1 subs]

/-- How many handshake frames `open` has sent when its program counter is
`pc` (see `OpenStep`): pc 0, 1, 2 are before the authorization wait
completes, pc 3 to 5 sit between the channel-setup sends, pc 6 is the
return. -/
def sentCount : Nat → Nat
  | 0 => 0
  | 1 => 1
  | 2 => 2
  | 3 => 2
  | 4 => 3
  | 5 => 4
  | _ => 5

/-- A joint state of the thread running `Subscription.open` and the
receive thread: the program counter of `open` (0 before the SETUP send,
1 before AUTH, 2 inside the authorization busy-wait, 3 to 5 before the
three channel sends, 6 after the last send), the shared session state,
the frames `open` has sent so far in order, and the history flag
`ever_authorized` recording whether `is_authorized` has been true at any
point of the execution. -/
structure OpenExec where
  pc : Nat
  session : SessionState
  ever_authorized : Bool
  sent : List OutFrame

/-- The state when `open` starts: nothing sent, fresh session state. -/
def initOpenExec : OpenExec :=
  { pc := 0, session := initialSessionState, ever_authorized := false,
    sent := [] }

/-- Small-step semantics of `Subscription.open` (lines 89 to 96)
interleaved with the receive thread. The send steps follow the straight
program order of `open`; `wait_auth` can fire only when `__is_authorized`
reads true, modelling exit from the busy-wait loop; `recv` lets the
receive thread process any inbound frame whose handling does not raise,
updating the shared session state. `token` and `subs` are the session
token and the already-computed subscription list; `cbs` the registered
callbacks. -/
inductive OpenStep (α : Type) (cbs : Callbacks) (token : String)
    (subs : List (String × EventType)) : OpenExec → OpenExec → Prop where
  | send_setup (s : OpenExec) (h : s.pc = 0) :
      OpenStep α cbs token subs s
        { s with pc := 1, sent := s.sent ++ [OutFrame.SETUP 0 protocolVersion] }
  | send_auth (s : OpenExec) (h : s.pc = 1) :
      OpenStep α cbs token subs s
        { s with pc := 2, sent := s.sent ++ [OutFrame.AUTH 0 token] }
  | wait_auth (s : OpenExec) (h : s.pc = 2)
      (ha : s.session.is_authorized = true) :
      OpenStep α cbs token subs s { s with pc := 3 }
  | send_channel_request (s : OpenExec) (h : s.pc = 3) :
      OpenStep α cbs token subs s
        { s with pc := 4,
                 sent := s.sent ++ [OutFrame.CHANNEL_REQUEST 1 "FEED" "AUTO"] }
  | send_feed_setup (s : OpenExec) (h : s.pc = 4) :
      OpenStep α cbs token subs s
        { s with pc := 5,
                 sent := s.sent ++
                   [OutFrame.FEED_SETUP 1 10 "COMPACT" FIELD_MAPPINGS_assoc] }
  | send_feed_subscription (s : OpenExec) (h : s.pc = 5) :
      OpenStep α cbs token subs s
        { s with pc := 6,
                 sent := s.sent ++ [OutFrame.FEED_SUBSCRIPTION 1 subs] }
  | recv (s : OpenExec) (f : InboundFrame α) (s2 : SessionState)
      (d : Option (CallbackSlot × List (Event α)))
      (h : receive cbs s.session f = Except.ok (s2, d)) :
      OpenStep α cbs token subs s
        { s with session := s2,
                 ever_authorized := s.ever_authorized || s2.is_authorized }

/-- The states reachable while `Subscription.open` runs. -/
def OpenReachable (α : Type) (cbs : Callbacks) (token : String)
    (subs : List (String × EventType)) (s : OpenExec) : Prop :=
  Relation.ReflTransGen (OpenStep α cbs token subs) initOpenExec s

/-- Whether the callback slot for an event type is non-null. -/
def callbackRegistered (cbs : Callbacks) : EventType → Bool
  | EventType.QUOTE => cbs.on_quote
  | EventType.CANDLE => cbs.on_candle
  | EventType.GREEKS => cbs.on_greeks
  | EventType.TRADE => cbs.on_trade

/-- A callback set with every slot registered, for concrete runs. -/
def exampleCallbacks : Callbacks :=
  { on_candle := true, on_greeks := true, on_quote := true, on_trade := true }

/-- A callback set with only the quote slot registered. -/
def onlyQuoteCallbacks : Callbacks :=
  { on_candle := false, on_greeks := false, on_quote := true, on_trade := false }

/-- C1: the claim states that `close()` never raises, in particular on a
session that was constructed but never opened. The code contradicts this:
`__keepalive_thread` is only a class-level annotation and is first
assigned when the receive loop handles the SETUP acknowledgment, so on a
never-opened session the presence guard `if self.__keepalive_thread:`
itself raises `AttributeError`. This theorem evaluates `close` at that
failing input. -/
theorem C1_close_raises_after_init :
    subscription_close subscription_attrs_after_init =
      Except.error "AttributeError: _Subscription__keepalive_thread" := rfl

/-- C2 counterexample: the claim states that once `authorized` is true it
is never reset by any later frame. Processing the concrete frame sequence
AUTH_STATE AUTHORIZED, AUTH_STATE UNAUTHORIZED from the start state makes
the flag true after the first frame and false again after the second. -/
theorem C2_counterexample :
    (run_receive_loop (α := Nat) exampleCallbacks initialSessionState
        [InboundFrame.auth_state "AUTHORIZED"]).is_authorized = true ∧
    (run_receive_loop (α := Nat) exampleCallbacks initialSessionState
        [InboundFrame.auth_state "AUTHORIZED",
         InboundFrame.auth_state "UNAUTHORIZED"]).is_authorized = false :=
  ⟨rfl, rfl⟩

/-- The new value of the authorized flag after the receive loop processes
one frame without raising, as the spec (section 4.4) describes it: an
AUTH_STATE frame assigns `state == AUTHORIZED`, every other frame leaves
the flag alone. -/
def authUpdate {α : Type} : InboundFrame α → Bool → Bool
  | InboundFrame.auth_state st, _ => st == "AUTHORIZED"
  | _, a => a

/-- C2 amended: `authorized` starts false and is assigned by every
processed AUTH_STATE frame to the truth of `state == AUTHORIZED` (so it
becomes true only on an AUTHORIZED frame, but a later AUTH_STATE frame
with a different state resets it to false); frames of any other type
leave it unchanged. -/
theorem C2_auth_flag_follows_auth_state {α : Type} (cbs : Callbacks)
    (s s2 : SessionState) (f : InboundFrame α)
    (d : Option (CallbackSlot × List (Event α)))
    (h : receive cbs s f = Except.ok (s2, d)) :
    s2.is_authorized = authUpdate f s.is_authorized ∧
    initialSessionState.is_authorized = false := by
  refine ⟨?_, rfl⟩
  cases f with
  | error e m => simp [receive] at h
  | setup kt =>
      simp only [receive, Except.ok.injEq, Prod.mk.injEq] at h
      rw [← h.1]
      rfl
  | auth_state st =>
      simp only [receive, Except.ok.injEq, Prod.mk.injEq] at h
      rw [← h.1]
      rfl
  | feed_data head values =>
      simp only [receive] at h
      cases hm : map_message cbs head values with
      | error e => rw [hm] at h; simp at h
      | ok dres =>
          rw [hm] at h
          simp only [Except.ok.injEq, Prod.mk.injEq] at h
          rw [← h.1]
          rfl
  | other t =>
      simp only [receive, Except.ok.injEq, Prod.mk.injEq] at h
      rw [← h.1]
      rfl

/-- Witness for the C2 amended theorem at a concrete frame. -/
theorem C2_auth_flag_witness :
    (({ initialSessionState with is_authorized := true } : SessionState).is_authorized =
      authUpdate (InboundFrame.auth_state (α := Nat) "AUTHORIZED")
        initialSessionState.is_authorized) ∧
    initialSessionState.is_authorized = false :=
  C2_auth_flag_follows_auth_state (α := Nat) exampleCallbacks
    initialSessionState { initialSessionState with is_authorized := true }
    (InboundFrame.auth_state "AUTHORIZED") none rfl

/-- C3: the claim states that a batch whose event type has no registered
callback is dropped with only a log entry and no propagated error. The
code contradicts this: the fallback branch evaluates the undefined name
`original_symbol` and raises `NameError`. This theorem evaluates the
dispatcher at such a failing input, and also at a registered type, where
the single matching callback receives the whole batch. -/
theorem C3_dispatch_evaluated :
    handle_feed_event (α := Nat) onlyQuoteCallbacks [[("bidPrice", 1)]]
        EventType.GREEKS =
      Except.error "NameError: name original_symbol is not defined" ∧
    handle_feed_event (α := Nat) onlyQuoteCallbacks [[("bidPrice", 1)]]
        EventType.QUOTE =
      Except.ok (CallbackSlot.quote, [[("bidPrice", 1)]]) :=
  ⟨rfl, rfl⟩

/-- C5: an input whose length is not a multiple of the schema length
makes the decoder fail with the malformed-frame error, producing no
records. -/
theorem C5_decoder_rejects_nonmultiple {α : Type} (t : EventType)
    (data : List α) (h : ¬ ((FIELD_MAPPINGS t).length ∣ data.length)) :
    event_from_stream data t =
      Except.error "Mapper data input values are not a multiple of the key size" := by
  have h1 : ¬ (data.length % (FIELD_MAPPINGS t).length = 0) :=
    fun hm => h (Nat.dvd_of_mod_eq_zero hm)
  simp [event_from_stream, h1]

/-- Witness for C5: five values against the twelve-field quote schema. -/
theorem C5_decoder_rejects_witness :
    (¬ ((FIELD_MAPPINGS EventType.QUOTE).length ∣ (List.range 5).length)) ∧
    event_from_stream (List.range 5) EventType.QUOTE =
      Except.error "Mapper data input values are not a multiple of the key size" :=
  ⟨by decide, C5_decoder_rejects_nonmultiple EventType.QUOTE (List.range 5) (by decide)⟩

/-- C7: when the explicit subscription list is omitted, the list sent by
`open` is the symbol-major cross product of the streamer symbols with
exactly the event types whose callback is non-null; in particular symbols
A, B with only quote and trade callbacks yield
(A, Quote), (A, Trade), (B, Quote), (B, Trade). -/
theorem C7_default_subscription_cross_product
    (streamer_symbols : List String) (cbs : Callbacks) :
    open_subscriptions none streamer_symbols cbs =
      streamer_symbols.flatMap (fun s =>
        ([EventType.QUOTE, EventType.CANDLE, EventType.GREEKS,
          EventType.TRADE].filter (callbackRegistered cbs)).map fun t => (s, t)) ∧
    open_subscriptions none ["A", "B"]
        { on_candle := false, on_greeks := false, on_quote := true, on_trade := true } =
      [("A", EventType.QUOTE), ("A", EventType.TRADE),
       ("B", EventType.QUOTE), ("B", EventType.TRADE)] := by
  constructor
  · have hst : subscription_types cbs =
        [EventType.QUOTE, EventType.CANDLE, EventType.GREEKS,
         EventType.TRADE].filter (callbackRegistered cbs) := by
      rcases cbs with ⟨c, g, q, t⟩
      cases c <;> cases g <;> cases q <;> cases t <;> rfl
    simp [open_subscriptions, hst]
  · rfl

/-- C8: the SETUP acknowledgment with server timeout `timeout` makes the
receive loop start a keepalive task whose polling interval is the floor
of `timeout / 2` and whose activity sends a KEEPALIVE frame on channel 0;
a timeout of 30 yields interval 15 and a timeout of 7 yields 3. -/
theorem C8_setup_starts_keepalive {α : Type} (cbs : Callbacks)
    (s : SessionState) (timeout : Nat) :
    receive (α := α) cbs s (InboundFrame.setup timeout) =
      Except.ok
        ({ s with
            keepalive_thread := some ⟨ThreadActivity.sendKeepalive 0, timeout / 2⟩ },
         none) ∧
    (30 : Nat) / 2 = 15 ∧ (7 : Nat) / 2 = 3 :=
  ⟨rfl, rfl, rfl⟩

/-- C9: construction fails with the configuration error exactly when all
four callbacks are null; the constructor is pure in this model, so no
network activity is involved in either case. -/
theorem C9_constructor_requires_callback (url token : String)
    (subscriptions : Option (List (String × EventType)))
    (streamer_symbols : List String) (cbs : Callbacks) :
    (∃ e, subscription_init url token subscriptions streamer_symbols cbs =
        Except.error e) ↔
      cbs.on_candle = false ∧ cbs.on_greeks = false ∧
      cbs.on_quote = false ∧ cbs.on_trade = false := by
  rcases cbs with ⟨c, g, q, t⟩
  cases c <;> cases g <;> cases q <;> cases t <;> simp [subscription_init]

/-- C10: an empty flat value array decodes successfully to an empty
record list for every event type. -/
theorem C10_empty_input_decodes_empty (α : Type) (t : EventType) :
    event_from_stream ([] : List α) t = Except.ok [] := by
  simp [event_from_stream]

/-- C4: for a value array whose length is n times the schema length k,
the decoder succeeds with exactly n records in chunk order, record i
being the positional pairing of the schema field names with the slice of
the values from position i times k of length k. -/
theorem C4_decoder_success {α : Type} (t : EventType) (k n : Nat)
    (data : List α) (hk : k = (FIELD_MAPPINGS t).length)
    (h : data.length = n * k) :
    event_from_stream data t =
      Except.ok ((List.range n).map fun i =>
        (FIELD_MAPPINGS t).zip ((data.drop (i * k)).take k)) ∧
    ((List.range n).map fun i =>
      (FIELD_MAPPINGS t).zip ((data.drop (i * k)).take k)).length = n := by
  subst hk
  have hkpos : 0 < (FIELD_MAPPINGS t).length := by cases t <;> decide
  refine ⟨?_, by simp⟩
  have h1 : data.length % (FIELD_MAPPINGS t).length = 0 := by
    rw [h]; exact Nat.mul_mod_left n _
  have h2 : data.length / (FIELD_MAPPINGS t).length = n := by
    rw [h]; exact Nat.mul_div_cancel n hkpos
  simp [event_from_stream, h1, h2]

/-- Witness for C4: 24 values against the twelve-field quote schema give
exactly two records. -/
theorem C4_decoder_success_witness :
    (List.range 24).length = 2 * 12 ∧
    (event_from_stream (List.range 24) EventType.QUOTE =
        Except.ok ((List.range 2).map fun i =>
          (FIELD_MAPPINGS EventType.QUOTE).zip
            (((List.range 24).drop (i * 12)).take 12)) ∧
      ((List.range 2).map fun i =>
        (FIELD_MAPPINGS EventType.QUOTE).zip
          (((List.range 24).drop (i * 12)).take 12)).length = 2) :=
  ⟨by decide,
   C4_decoder_success EventType.QUOTE 12 2 (List.range 24) rfl (by decide)⟩

/-- The safety invariant of the open/receive interleaving: the trace of
frames sent by `open` is exactly the handshake prefix determined by its
program counter; the authorized flag implies the history flag; past the
busy-wait the history flag is set; and any of the three channel-setup
frames in the trace implies the history flag. -/
def OpenInv (token : String) (subs : List (String × EventType))
    (s : OpenExec) : Prop :=
  s.sent = (handshakeSends token subs).take (sentCount s.pc) ∧
  (s.session.is_authorized = true → s.ever_authorized = true) ∧
  (3 ≤ s.pc → s.ever_authorized = true) ∧
  ((OutFrame.CHANNEL_REQUEST 1 "FEED" "AUTO" ∈ s.sent ∨
    OutFrame.FEED_SETUP 1 10 "COMPACT" FIELD_MAPPINGS_assoc ∈ s.sent ∨
    OutFrame.FEED_SUBSCRIPTION 1 subs ∈ s.sent) → s.ever_authorized = true)

/-- Every state reachable during `open` satisfies `OpenInv`. -/
theorem open_reachable_inv {α : Type} (cbs : Callbacks) (token : String)
    (subs : List (String × EventType)) (s : OpenExec)
    (h : OpenReachable α cbs token subs s) : OpenInv token subs s := by
  induction h with
  | refl =>
      refine ⟨rfl, ?_, ?_, ?_⟩
      · intro hx; simp [initOpenExec, initialSessionState] at hx
      · intro hx; simp [initOpenExec] at hx
      · intro hm; simp [initOpenExec] at hm
  | tail _ hstep ih =>
      obtain ⟨h1, h2, h3, h4⟩ := ih
      cases hstep with
      | send_setup hpc =>
          refine ⟨?_, h2, ?_, ?_⟩
          · dsimp only
            simp only [h1, hpc]
            rfl
          · intro hx
            have hx2 : (3 : Nat) ≤ 1 := hx
            omega
          · intro hm
            apply h4
            simpa using hm
      | send_auth hpc =>
          refine ⟨?_, h2, ?_, ?_⟩
          · dsimp only
            simp only [h1, hpc]
            rfl
          · intro hx
            have hx2 : (3 : Nat) ≤ 2 := hx
            omega
          · intro hm
            apply h4
            simpa using hm
      | wait_auth hpc ha =>
          refine ⟨?_, h2, ?_, ?_⟩
          · dsimp only
            simp only [h1, hpc]
            rfl
          · intro _; exact h2 ha
          · intro hm; exact h4 hm
      | send_channel_request hpc =>
          refine ⟨?_, h2, ?_, ?_⟩
          · dsimp only
            simp only [h1, hpc]
            rfl
          · intro _; exact h3 (by omega)
          · intro _; exact h3 (by omega)
      | send_feed_setup hpc =>
          refine ⟨?_, h2, ?_, ?_⟩
          · dsimp only
            simp only [h1, hpc]
            rfl
          · intro _; exact h3 (by omega)
          · intro _; exact h3 (by omega)
      | send_feed_subscription hpc =>
          refine ⟨?_, h2, ?_, ?_⟩
          · dsimp only
            simp only [h1, hpc]
            rfl
          · intro _; exact h3 (by omega)
          · intro _; exact h3 (by omega)
      | recv f s2 d hrec =>
          refine ⟨h1, ?_, ?_, ?_⟩
          · intro hx
            have hx2 : s2.is_authorized = true := hx
            simp [hx2]
          · intro hx
            simp [h3 hx]
          · intro hm
            simp [h4 hm]

/-- C6: in every reachable state of an `open` run, the frames sent so far
form, in order, a prefix of SETUP, AUTH, CHANNEL_REQUEST, FEED_SETUP,
FEED_SUBSCRIPTION, and none of the three channel-setup frames has been
sent unless the authorized flag has already been true at some earlier
point of the run. -/
theorem C6_handshake_order {α : Type} (cbs : Callbacks) (token : String)
    (subs : List (String × EventType)) (s : OpenExec)
    (h : OpenReachable α cbs token subs s) :
    s.sent = (handshakeSends token subs).take (sentCount s.pc) ∧
    ((OutFrame.CHANNEL_REQUEST 1 "FEED" "AUTO" ∈ s.sent ∨
      OutFrame.FEED_SETUP 1 10 "COMPACT" FIELD_MAPPINGS_assoc ∈ s.sent ∨
      OutFrame.FEED_SUBSCRIPTION 1 subs ∈ s.sent) →
      s.ever_authorized = true) := by
  obtain ⟨h1, _, _, h4⟩ := open_reachable_inv cbs token subs s h
  exact ⟨h1, h4⟩

/-- Witness for C6 at the initial state of a run. -/
theorem C6_handshake_order_witness :
    initOpenExec.sent =
      (handshakeSends "token0" []).take (sentCount initOpenExec.pc) ∧
    ((OutFrame.CHANNEL_REQUEST 1 "FEED" "AUTO" ∈ initOpenExec.sent ∨
      OutFrame.FEED_SETUP 1 10 "COMPACT" FIELD_MAPPINGS_assoc ∈ initOpenExec.sent ∨
      OutFrame.FEED_SUBSCRIPTION 1 [] ∈ initOpenExec.sent) →
      initOpenExec.ever_authorized = true) :=
  C6_handshake_order (α := Nat) exampleCallbacks "token0" [] initOpenExec
    Relation.ReflTransGen.refl
